import Mathlib

/-!
Verification development for the HappyRepair backend.

The definitions below are shallow embeddings of the repository's code:

* `find_mechanics_within_radius` (schema.sql, lines 631-672) is embedded as
  `findMechanics`, over a relational state `DB` and an abstract geodesic
  distance function `dist` standing for PostGIS `ST_Distance` on geography
  values (meters).  `ST_DWithin(g1, g2, d)` on geography is distance ≤ d,
  embedded as a comparison of `dist` against the tolerance.
* the `update_mechanic_rating` trigger (schema.sql, lines 478-499) is embedded
  as `runRatingTrigger`, fired by `insertReview` / `updateReview`.
* the `update_mechanic_location` trigger (schema.sql, lines 463-475) is
  embedded as `applyLocTrigger`.
* `GET /api/services` (services.ts) is embedded as `getServices`.
* `GET /api/mechanics/:id` (mechanics.ts, lines 49-78) is embedded as
  `getMechanicById`.
* the `GET /api/mechanics/nearby` handler (mechanics.ts, lines 6-47) is
  embedded as `nearbyHandler`, with JavaScript `parseFloat` / `parseInt`
  modelled by `parseFloatM` / `parseIntM` (`none` plays the role of `NaN`;
  the model covers sign, integer and fraction digits, and ignores trailing
  characters, exactly as JS does on such inputs).

SQL `NUMERIC` values are modelled as `ℚ`, nullable columns as `Option`,
row sets as `List`s.  `ROUND(x, 2)` on `numeric` (round half away from zero)
is `round2`.
-/

attribute [local semireducible] Rat.mul Rat.add Rat.sub Rat.inv

/-- A PostGIS geography point, `ST_MakePoint(lng, lat)`: the pair (lng, lat). -/
abbrev Point := ℚ × ℚ

/-- PostgreSQL `ROUND(x::numeric, 2)`: round half away from zero to 2 decimals. -/
def round2 (x : ℚ) : ℚ :=
  if x < 0 then -(((Rat.floor ((-x) * 100 + 1/2)) : ℚ) / 100)
  else ((Rat.floor (x * 100 + 1/2) : ℚ) / 100)

/-- The conversion factor used in the `ST_DWithin` call: `radius_miles * 1609.34`. -/
def metersPerMile : ℚ := 160934 / 100

/-- The conversion factor used for the reported distance: `* 0.000621371`. -/
def mileFactor : ℚ := 621371 / 1000000000

/-- Row of the `mechanics` table (the columns the embedded queries touch).
`rating` is nullable `DECIMAL(3,2)` with default `0.0`; `location` is the
trigger-maintained `GEOGRAPHY(POINT)` column, nullable. -/
structure Mechanic where
  id : ℕ
  businessName : String
  latitude : Option ℚ
  longitude : Option ℚ
  location : Option Point
  rating : Option ℚ
  reviewCount : ℕ
  isActive : Bool
  isVerified : Bool
deriving DecidableEq, Repr

/-- Row of the `services` table. `category` and `description` are nullable. -/
structure Service where
  id : ℕ
  name : String
  category : Option String
  description : Option String
  estimatedDuration : ℕ
  isActive : Bool
deriving DecidableEq, Repr

/-- Row of `service_translations`; unique per (service_id, language_code). -/
structure ServiceTranslation where
  serviceId : ℕ
  languageCode : String
  name : String
  description : Option String
deriving DecidableEq, Repr

/-- Row of `mechanic_services`; unique per (mechanic_id, service_id). -/
structure MechanicService where
  mechanicId : ℕ
  serviceId : ℕ
  minPrice : ℚ
  maxPrice : ℚ
  isAvailable : Bool
deriving DecidableEq, Repr

/-- Row of `reviews`; `rating` is an INTEGER with CHECK 1..5. -/
structure Review where
  bookingId : ℕ
  customerId : ℕ
  mechanicId : ℕ
  rating : ℤ
  isPublished : Bool
deriving DecidableEq, Repr

/-- The relational state the embedded queries run against. -/
structure DB where
  mechanics : List Mechanic
  services : List Service
  serviceTranslations : List ServiceTranslation
  mechanicServices : List MechanicService
  reviews : List Review
deriving DecidableEq, Repr

/-- Containment of one code-point list in another as a contiguous sublist. -/
def containsSub : List ℕ → List ℕ → Bool
  | [], needle => needle.isEmpty
  | h :: t, needle => needle.isPrefixOf (h :: t) || containsSub t needle

/-- ASCII lowercase on a code point (`lower()` as ILIKE applies it to the
ASCII service names this schema stores). -/
def lowerCode (n : ℕ) : ℕ := if 65 ≤ n ∧ n ≤ 90 then n + 32 else n

/-- The lowercased code points of a string. -/
def lowerKey (s : String) : List ℕ := s.data.map (fun c => lowerCode c.toNat)

/-- The test `s.name ILIKE '%' || service_filter || '%'` (case-insensitive substring
match; the filter strings this API passes contain no `%`/`_` wildcards). -/
def ilikeContains (hay filterStr : String) : Bool :=
  containsSub (lowerKey hay) (lowerKey filterStr)

/-- One joined row of `mechanic_services JOIN services` survives the WHERE
clause of `find_mechanics_within_radius` for mechanic id `mid`:
`ms.mechanic_id = mid AND ms.is_available AND (service_filter IS NULL OR
s.name ILIKE '%' || service_filter || '%')`.  The inner JOIN drops the row
when no `services` row matches `ms.service_id`. -/
def offeringMatches (db : DB) (filt : Option String) (mid : ℕ) (ms : MechanicService) : Bool :=
  ms.mechanicId == mid && ms.isAvailable &&
    match db.services.find? (fun s => s.id == ms.serviceId) with
    | none => false
    | some s =>
      match filt with
      | none => true
      | some f => ilikeContains s.name f

/-- All joined offering rows for mechanic `m` that survive the WHERE clause. -/
def matchingOfferings (db : DB) (filt : Option String) (m : Mechanic) : List MechanicService :=
  db.mechanicServices.filter (offeringMatches db filt m.id)

/-- The test `ST_DWithin(m.location, query_point, radius_miles * 1609.34)`: distance of
the mechanic's geography point from the query point is at most the radius in
meters; SQL three-valued logic drops the row when `m.location IS NULL`. -/
def withinRadius (dist : Point → Point → ℚ) (q : Point) (r : ℤ) (m : Mechanic) : Bool :=
  match m.location with
  | none => false
  | some p => decide (dist p q ≤ (r : ℚ) * metersPerMile)

/-- The full WHERE clause of `find_mechanics_within_radius` (a mechanic is in
the output iff at least one joined row survives, which the GROUP BY then
collapses). -/
def includedMech (db : DB) (dist : Point → Point → ℚ) (q : Point) (r : ℤ)
    (filt : Option String) (m : Mechanic) : Bool :=
  m.isActive && m.isVerified && withinRadius dist q r m &&
    !(matchingOfferings db filt m).isEmpty

/-- SQL MIN over a (nonempty, by construction) group. -/
def groupMin (l : List ℚ) : ℚ :=
  match l with
  | [] => 0
  | x :: t => t.foldl min x

/-- SQL MAX over a (nonempty, by construction) group. -/
def groupMax (l : List ℚ) : ℚ :=
  match l with
  | [] => 0
  | x :: t => t.foldl max x

/-- The value `ST_Distance(m.location, query_point)` in meters; only evaluated for
mechanics that passed `withinRadius`, whose location is non-null. -/
def rawDist (dist : Point → Point → ℚ) (q : Point) (m : Mechanic) : ℚ :=
  match m.location with
  | none => 0
  | some p => dist p q

/-- One output row of `find_mechanics_within_radius`. -/
structure MechRow where
  id : ℕ
  businessName : String
  distanceMiles : ℚ
  rating : Option ℚ
  minPrice : ℚ
  maxPrice : ℚ
deriving DecidableEq, Repr

/-- The SELECT list for one mechanic group: `distance_miles` is
`ROUND((ST_Distance(..) * 0.000621371)::numeric, 2)`, prices are MIN/MAX over
the group's offering rows. -/
def mechRow (db : DB) (dist : Point → Point → ℚ) (q : Point) (filt : Option String)
    (m : Mechanic) : MechRow :=
  { id := m.id
    businessName := m.businessName
    distanceMiles := round2 (rawDist dist q m * mileFactor)
    rating := m.rating
    minPrice := groupMin ((matchingOfferings db filt m).map (·.minPrice))
    maxPrice := groupMax ((matchingOfferings db filt m).map (·.maxPrice)) }

/-- The sort key of `ORDER BY distance_miles ASC`: the SELECT alias
`distance_miles`, i.e. the ROUNDed value. -/
def rowLe (a b : MechRow) : Prop := a.distanceMiles ≤ b.distanceMiles

instance : DecidableRel rowLe :=
  fun a b => inferInstanceAs (Decidable (a.distanceMiles ≤ b.distanceMiles))

instance : IsTotal MechRow rowLe := ⟨fun a b => le_total a.distanceMiles b.distanceMiles⟩

instance : IsTrans MechRow rowLe := ⟨fun _ _ _ h h' => le_trans h h'⟩

/-- The function `find_mechanics_within_radius(search_lat, search_lng, radius_miles,
service_filter)`: filter, project per group, `ORDER BY distance_miles ASC`
(ties left to the sort's discretion, as in SQL). -/
def findMechanics (db : DB) (dist : Point → Point → ℚ) (lat lng : ℚ) (r : ℤ)
    (filt : Option String) : List MechRow :=
  List.insertionSort rowLe
    ((db.mechanics.filter (includedMech db dist (lng, lat) r filt)).map
      (mechRow db dist (lng, lat) filt))

/-!
Service catalog lookup (`GET /api/services`, services.ts lines 10-21).
The query is
`SELECT s.id, s.category, s.estimated_duration, COALESCE(st.name, s.name),
 COALESCE(st.description, s.description) FROM services s LEFT JOIN
 service_translations st ON s.id = st.service_id AND st.language_code = $1
 WHERE s.is_active = true ORDER BY s.category, s.name`.
The ORDER BY key is the canonical `s.name`, not the resolved name, with the
nullable `s.category` sorting NULLS LAST as Postgres does for ASC.
-/

/-- Lexicographic comparison of numeric key lists (the order `ORDER BY` uses,
with strings encoded as code-point lists). -/
def lexLe : List ℕ → List ℕ → Bool
  | [], _ => true
  | _ :: _, [] => false
  | a :: as, b :: bs => if a < b then true else if b < a then false else lexLe as bs

/-- Code-point key of a string, shifted so that 0 can serve as a separator. -/
def strKey (s : String) : List ℕ := s.data.map (fun c => c.toNat + 1)

/-- Sort key of `ORDER BY s.category, s.name`: category (NULL last), then the
canonical name, joined by a separator below every character code. -/
def catNameKey (s : Service) : List ℕ :=
  (match s.category with
   | some c => 0 :: strKey c
   | none => [1]) ++ 0 :: strKey s.name

/-- The row order produced by `ORDER BY s.category, s.name`. -/
def svcLe (a b : Service) : Prop := lexLe (catNameKey a) (catNameKey b) = true

instance : DecidableRel svcLe :=
  fun a b => inferInstanceAs (Decidable (lexLe (catNameKey a) (catNameKey b) = true))

lemma lexLe_total : ∀ a b : List ℕ, lexLe a b = true ∨ lexLe b a = true := by
  intro a
  induction a with
  | nil => intro b; left; rfl
  | cons x xs ih =>
    intro b
    cases b with
    | nil => right; rfl
    | cons y ys =>
      by_cases h1 : x < y
      · left; simp [lexLe, h1]
      · by_cases h2 : y < x
        · right; simp [lexLe, h2]
        · rcases ih ys with h | h
          · left; simp [lexLe, h1, h2, h]
          · right; simp [lexLe, h1, h2, h]

lemma lexLe_trans : ∀ a b c : List ℕ,
    lexLe a b = true → lexLe b c = true → lexLe a c = true := by
  intro a
  induction a with
  | nil => intro b c _ _; rfl
  | cons x xs ih =>
    intro b c hab hbc
    cases b with
    | nil => simp [lexLe] at hab
    | cons y ys =>
      cases c with
      | nil => simp [lexLe] at hbc
      | cons z zs =>
        simp only [lexLe] at hab hbc ⊢
        split_ifs at hab hbc ⊢ <;>
          first
            | rfl
            | omega
            | exact ih ys zs hab hbc

instance : IsTotal Service svcLe := ⟨fun a b => lexLe_total (catNameKey a) (catNameKey b)⟩

instance : IsTrans Service svcLe :=
  ⟨fun _ _ _ h h' => lexLe_trans _ _ _ h h'⟩

/-- The output row shape of `GET /api/services`. -/
structure ServiceRow where
  id : ℕ
  category : Option String
  estimatedDuration : ℕ
  name : String
  description : Option String
deriving DecidableEq, Repr

/-- The LEFT JOIN partner: the unique `service_translations` row for
(service, language), when it exists. -/
def findTranslation (db : DB) (lang : String) (s : Service) : Option ServiceTranslation :=
  db.serviceTranslations.find? (fun t => t.serviceId == s.id && t.languageCode == lang)

/-- The SELECT list: `COALESCE(st.name, s.name)`, `COALESCE(st.description,
s.description)` (both the missing-row and the NULL-column case fall back). -/
def resolveService (db : DB) (lang : String) (s : Service) : ServiceRow :=
  match findTranslation db lang s with
  | some t =>
    { id := s.id, category := s.category, estimatedDuration := s.estimatedDuration,
      name := t.name, description := t.description <|> s.description }
  | none =>
    { id := s.id, category := s.category, estimatedDuration := s.estimatedDuration,
      name := s.name, description := s.description }

/-- The endpoint `GET /api/services?language=lang`: active services, translation fallback,
ordered by category then canonical name. -/
def getServices (db : DB) (lang : String) : List ServiceRow :=
  (List.insertionSort svcLe (db.services.filter (·.isActive))).map (resolveService db lang)

/-!
Rating aggregation: the `update_mechanic_rating` trigger (schema.sql lines
478-499), fired AFTER INSERT OR UPDATE on `reviews`, sets the owning
mechanic's `rating` to `ROUND(AVG(rating)::numeric, 2)` and `review_count` to
`COUNT(*)`, both over the mechanic's published reviews.  `AVG` over an empty
set is SQL NULL (`none`); `COUNT` over an empty set is 0.
-/

/-- Ratings of the published reviews of mechanic `mid`. -/
def publishedRatings (db : DB) (mid : ℕ) : List ℤ :=
  (db.reviews.filter (fun rv => rv.mechanicId == mid && rv.isPublished)).map (·.rating)

/-- The aggregate `ROUND(AVG(rating)::numeric, 2)`: NULL on an empty set, else the mean
rounded to 2 decimals. -/
def avgRound2 (l : List ℤ) : Option ℚ :=
  match l with
  | [] => none
  | _ :: _ => some (round2 ((l.sum : ℤ) / (l.length : ℚ)))

/-- The UPDATE the trigger performs on the `mechanics` row with
`id = NEW.mechanic_id`. -/
def runRatingTrigger (db : DB) (mid : ℕ) : DB :=
  { db with
    mechanics := db.mechanics.map (fun m =>
      if m.id = mid then
        { m with
          rating := avgRound2 (publishedRatings db mid)
          reviewCount := (publishedRatings db mid).length }
      else m) }

/-- INSERT INTO reviews followed by the AFTER INSERT trigger, in one atomic
step (the trigger runs synchronously in the inserting transaction). -/
def insertReview (db : DB) (rv : Review) : DB :=
  runRatingTrigger { db with reviews := db.reviews ++ [rv] } rv.mechanicId

/-- UPDATE of the (unique, per booking) review row's rating and publication
status, followed by the AFTER UPDATE trigger with `NEW.mechanic_id`. -/
def updateReview (db : DB) (bid : ℕ) (newRating : ℤ) (newPublished : Bool) : DB :=
  match db.reviews.find? (fun rv => rv.bookingId == bid) with
  | none => db
  | some old =>
    runRatingTrigger
      { db with
        reviews := db.reviews.map (fun rv =>
          if rv.bookingId == bid then
            { rv with rating := newRating, isPublished := newPublished }
          else rv) }
      old.mechanicId

/-!
Location maintenance: the `update_mechanic_location` trigger (schema.sql
lines 463-475), fired BEFORE INSERT OR UPDATE on `mechanics`: when both
latitude and longitude of the written row are non-null it sets `location` to
`ST_MakePoint(longitude, latitude)`, otherwise it leaves the column as the
write produced it.
-/

/-- The latitude/longitude part of one INSERT or UPDATE on `mechanics`. -/
structure MechWrite where
  latitude : Option ℚ
  longitude : Option ℚ
deriving DecidableEq, Repr

/-- The BEFORE INSERT OR UPDATE trigger's effect on the `location` column. -/
def applyLocTrigger (loc : Option Point) (w : MechWrite) : Option Point :=
  match w.latitude with
  | none => loc
  | some la =>
    match w.longitude with
    | none => loc
    | some ln => some (ln, la)

/-- The `location` column after a sequence of writes, starting from the NULL
it holds when the application never supplies it directly. -/
def locationAfterWrites (ws : List MechWrite) : Option Point :=
  ws.foldl applyLocTrigger none

/-!
The endpoint `GET /api/mechanics/:id` (mechanics.ts lines 49-78): `SELECT m.*,
array_agg(DISTINCT s.name) FILTER (WHERE s.name IS NOT NULL) as services FROM
mechanics m LEFT JOIN mechanic_services ms ON m.id = ms.mechanic_id LEFT JOIN
services s ON ms.service_id = s.id WHERE m.id = $1 AND m.is_active = true
GROUP BY m.id`; 404 when no row, else 200 with the single row.
-/

/-- The distinct joined service names for mechanic `mid` (`s.name` is NOT
NULL by schema, so the FILTER clause only discards the padding row a LEFT
JOIN produces when there are no offerings). -/
def aggNames (db : DB) (mid : ℕ) : List String :=
  ((db.mechanicServices.filter (fun ms => ms.mechanicId == mid)).filterMap
    (fun ms => (db.services.find? (fun s => s.id == ms.serviceId)).map (·.name))).dedup

/-- The aggregate `array_agg(DISTINCT s.name) FILTER (WHERE s.name IS NOT NULL)`: NULL when
no row survives the filter, else the distinct names. -/
def aggServices (db : DB) (mid : ℕ) : Option (List String) :=
  if (aggNames db mid).isEmpty then none else some (aggNames db mid)

/-- The two responses of `GET /api/mechanics/:id`: 404, or 200 with the
mechanic row and its aggregated `services` column. -/
inductive MechByIdRes where
  | notFound
  | found (m : Mechanic) (services : Option (List String))
deriving DecidableEq, Repr

/-- The handler of `GET /api/mechanics/:id`. -/
def getMechanicById (db : DB) (mid : ℕ) : MechByIdRes :=
  match db.mechanics.find? (fun m => m.id == mid && m.isActive) with
  | none => .notFound
  | some m => .found m (aggServices db mid)

/-!
The endpoint `GET /api/mechanics/nearby` (mechanics.ts lines 6-47).  The handler
destructures `{ latitude, longitude, radius = 10 } = req.query`, returns 400
when `!latitude || !longitude` (JavaScript truthiness: absent parameter or
empty string), and otherwise runs the `find_mechanics_within_radius` query
with `parseFloat(latitude)`, `parseFloat(longitude)`,
`parseInt(radius, 10)` — with no range or NaN checks.
-/

/-- Leading decimal digits of a character list, and the rest. -/
def takeDigits : List Char → List ℕ × List Char
  | [] => ([], [])
  | c :: rest =>
    if c.isDigit then
      ((c.toNat - 48) :: (takeDigits rest).1, (takeDigits rest).2)
    else ([], c :: rest)

/-- Value of a digit list read left to right. -/
def natOfDigits (ds : List ℕ) : ℕ := ds.foldl (fun a d => 10 * a + d) 0

/-- JavaScript `parseFloat` on the inputs this API sees: optional sign,
integer digits, optional fraction; trailing characters are ignored; `none`
models `NaN` (no digits at all). -/
def parseFloatM (s : String) : Option ℚ :=
  let (sg, cs) :=
    match s.data with
    | '-' :: r => ((-1 : ℚ), r)
    | '+' :: r => ((1 : ℚ), r)
    | r => ((1 : ℚ), r)
  let ipRest := takeDigits cs
  let fp :=
    match ipRest.2 with
    | '.' :: r => (takeDigits r).1
    | _ => []
  if ipRest.1.isEmpty && fp.isEmpty then none
  else some (sg * ((natOfDigits ipRest.1 : ℚ) + (natOfDigits fp : ℚ) / (10 : ℚ) ^ fp.length))

/-- JavaScript `parseInt(s, 10)`: optional sign then decimal digits, trailing
characters ignored; `none` models `NaN`. -/
def parseIntM (s : String) : Option ℤ :=
  let (sg, cs) :=
    match s.data with
    | '-' :: r => ((-1 : ℤ), r)
    | '+' :: r => ((1 : ℤ), r)
    | r => ((1 : ℤ), r)
  let ds := (takeDigits cs).1
  if ds.isEmpty then none else some (sg * (natOfDigits ds : ℤ))

/-- The three query parameters of `GET /api/mechanics/nearby` as received
(absent or a string). -/
structure NearbyReq where
  latitude : Option String
  longitude : Option String
  radius : Option String
deriving DecidableEq, Repr

/-- What the handler does: a 400 without touching storage, or the execution
of `find_mechanics_within_radius` with the parsed arguments (`none` = NaN). -/
inductive NearbyOutcome where
  | badRequest
  | queryExec (lat lng : Option ℚ) (radius : Option ℤ)
deriving DecidableEq, Repr

/-- JavaScript truthiness of a query parameter: absent (`undefined`) and the
empty string are falsy; every other string is truthy. -/
def jsTruthy : Option String → Bool
  | none => false
  | some s => !(s == "")

/-- The `GET /api/mechanics/nearby` handler. -/
def nearbyHandler (req : NearbyReq) : NearbyOutcome :=
  if !(jsTruthy req.latitude) || !(jsTruthy req.longitude) then .badRequest
  else
    .queryExec (parseFloatM (req.latitude.getD "")) (parseFloatM (req.longitude.getD ""))
      (match req.radius with
       | none => some 10
       | some r => parseIntM r)

/-!
Concrete sample states used to instantiate the theorems below.
-/

/-- A verified, active mechanic with a geography point. -/
def mechOne : Mechanic :=
  { id := 1, businessName := "Taller Uno", latitude := some 0, longitude := some 1,
    location := some (1, 0), rating := some (45/10), reviewCount := 12,
    isActive := true, isVerified := true }

/-- An active, verified mechanic whose location was never derived (NULL). -/
def mechTwo : Mechanic :=
  { id := 2, businessName := "Taller Dos", latitude := none, longitude := none,
    location := none, rating := some 5, reviewCount := 3,
    isActive := true, isVerified := true }

/-- A sample catalog service. -/
def svcOil : Service :=
  { id := 1, name := "Oil Change", category := some "Maintenance",
    description := some "Standard oil and filter change", estimatedDuration := 30,
    isActive := true }

/-- Sample state for the proximity-search witnesses. -/
def dbW : DB :=
  { mechanics := [mechOne, mechTwo]
    services := [svcOil]
    serviceTranslations := []
    mechanicServices :=
      [{ mechanicId := 1, serviceId := 1, minPrice := 30, maxPrice := 50, isAvailable := true },
       { mechanicId := 2, serviceId := 1, minPrice := 30, maxPrice := 50, isAvailable := true }]
    reviews := [] }

/-- A concrete stand-in for `ST_Distance` (meters): mechanic one's point is
1000 m from everything, anything else 99999 m away. -/
def dW : Point → Point → ℚ :=
  fun p _ => if p = ((1 : ℚ), (0 : ℚ)) then 1000 else 99999

/-- The row the proximity search produces for `mechOne` under `dW`. -/
def rowOne : MechRow :=
  { id := 1, businessName := "Taller Uno", distanceMiles := 62/100,
    rating := some (45/10), minPrice := 30, maxPrice := 50 }

/-- Mechanic 3218 m from the tie-query point. -/
def mechNear : Mechanic :=
  { id := 4, businessName := "Shop Near", latitude := some 0, longitude := some 2,
    location := some (2, 0), rating := some 4, reviewCount := 1,
    isActive := true, isVerified := true }

/-- Mechanic 3222 m from the tie-query point. -/
def mechFar : Mechanic :=
  { id := 3, businessName := "Shop Far", latitude := some 0, longitude := some 1,
    location := some (1, 0), rating := some 4, reviewCount := 1,
    isActive := true, isVerified := true }

/-- State with two mechanics whose true distances differ by 4 m but whose
reported distances both round to 2.00 miles; the farther one is stored
first. -/
def dbT : DB :=
  { mechanics := [mechFar, mechNear]
    services := [svcOil]
    serviceTranslations := []
    mechanicServices :=
      [{ mechanicId := 3, serviceId := 1, minPrice := 30, maxPrice := 50, isAvailable := true },
       { mechanicId := 4, serviceId := 1, minPrice := 25, maxPrice := 60, isAvailable := true }]
    reviews := [] }

/-- Geodesic distances for `dbT`: 3222 m for `mechFar`'s point, 3218 m for
`mechNear`'s. -/
def distT : Point → Point → ℚ :=
  fun p _ => if p = ((1 : ℚ), (0 : ℚ)) then 3222 else if p = ((2 : ℚ), (0 : ℚ)) then 3218 else 99999

/-- The first row the tie-query returns (the geodesically farther mechanic). -/
def rowFar : MechRow :=
  { id := 3, businessName := "Shop Far", distanceMiles := 2,
    rating := some 4, minPrice := 30, maxPrice := 50 }

/-- Catalog service that alphabetically precedes `svcLater` in English but
follows it in Spanish. -/
def svcBrake : Service :=
  { id := 11, name := "Brake Inspection", category := some "Repair",
    description := some "Complete brake system inspection", estimatedDuration := 45,
    isActive := true }

/-- Catalog service that alphabetically follows `svcBrake` in English but
precedes it in Spanish. -/
def svcLater : Service :=
  { id := 12, name := "Oil Change", category := some "Repair",
    description := none, estimatedDuration := 30,
    isActive := true }

/-- Spanish translation of `svcBrake`, starting with Z. -/
def trBrake : ServiceTranslation :=
  { serviceId := 11, languageCode := "es", name := "Zapatas y frenos",
    description := some "Inspeccion completa de frenos" }

/-- Spanish translation of `svcLater`, starting with A. -/
def trLater : ServiceTranslation :=
  { serviceId := 12, languageCode := "es", name := "Aceite",
    description := none }

/-- State whose Spanish-resolved service names invert the canonical order. -/
def dbS : DB :=
  { mechanics := []
    services := [svcLater, svcBrake]
    serviceTranslations := [trBrake, trLater]
    mechanicServices := []
    reviews := [] }

/-- A freshly registered mechanic: column defaults `rating = 0.0`,
`review_count = 0`, no reviews yet. -/
def mechFresh : Mechanic :=
  { id := 9, businessName := "Nuevo Taller", latitude := some 1, longitude := some 1,
    location := some (1, 1), rating := some 0, reviewCount := 0,
    isActive := true, isVerified := true }

/-- State holding only the freshly registered mechanic. -/
def dbR0 : DB :=
  { mechanics := [mechFresh], services := [], serviceTranslations := [],
    mechanicServices := [], reviews := [] }

/-- First review of the scenario: published, rating 5. -/
def rvFive : Review :=
  { bookingId := 101, customerId := 1, mechanicId := 9, rating := 5, isPublished := true }

/-- Second review of the scenario: published, rating 3. -/
def rvThree : Review :=
  { bookingId := 102, customerId := 2, mechanicId := 9, rating := 3, isPublished := true }

/-- Third review of the scenario: unpublished. -/
def rvHidden : Review :=
  { bookingId := 103, customerId := 3, mechanicId := 9, rating := 1, isPublished := false }

/-- State after the first insert. -/
def dbR1 : DB := insertReview dbR0 rvFive

/-- State after the second insert. -/
def dbR2 : DB := insertReview dbR1 rvThree

/-- State after the third (unpublished) insert. -/
def dbR3 : DB := insertReview dbR2 rvHidden

/-- Active but unverified mechanic for the by-id endpoint. -/
def mechById : Mechanic :=
  { id := 7, businessName := "Taller Siete", latitude := none, longitude := none,
    location := none, rating := some 0, reviewCount := 0,
    isActive := true, isVerified := false }

/-- Active mechanic with no offerings at all. -/
def mechBare : Mechanic :=
  { id := 8, businessName := "Taller Ocho", latitude := none, longitude := none,
    location := none, rating := some 0, reviewCount := 0,
    isActive := true, isVerified := true }

/-- An inactive catalog service offered (unavailably) by `mechById`. -/
def svcDiag : Service :=
  { id := 9, name := "Engine Diagnostic", category := some "Diagnostic",
    description := none, estimatedDuration := 30, isActive := false }

/-- State for the by-id endpoint: an unverified mechanic whose only offering
is unavailable and points at an inactive service, and a mechanic with no
offerings. -/
def dbX : DB :=
  { mechanics := [mechById, mechBare]
    services := [svcDiag]
    serviceTranslations := []
    mechanicServices :=
      [{ mechanicId := 7, serviceId := 9, minPrice := 10, maxPrice := 20, isAvailable := false }]
    reviews := [] }

/-!
Supporting lemmas about the embedded proximity search.
-/

lemma withinRadius_true {dist : Point → Point → ℚ} {q : Point} {r : ℤ} {m : Mechanic}
    (h : withinRadius dist q r m = true) :
    ∃ p, m.location = some p ∧ dist p q ≤ (r : ℚ) * metersPerMile := by
  unfold withinRadius at h
  cases hl : m.location with
  | none => rw [hl] at h; cases h
  | some p =>
    rw [hl] at h
    exact ⟨p, rfl, by simpa using h⟩

lemma offeringMatches_true {db : DB} {filt : Option String} {mid : ℕ} {ms : MechanicService}
    (h : offeringMatches db filt mid ms = true) :
    ms.mechanicId = mid ∧ ms.isAvailable = true ∧
      ∃ s, db.services.find? (fun x => x.id == ms.serviceId) = some s ∧
        ∀ f, filt = some f → ilikeContains s.name f = true := by
  unfold offeringMatches at h
  cases hf : db.services.find? (fun x => x.id == ms.serviceId) with
  | none => rw [hf] at h; simp at h
  | some s =>
    rw [hf] at h
    cases filt with
    | none =>
      simp only [Bool.and_eq_true, beq_iff_eq] at h
      exact ⟨h.1.1, h.1.2, s, rfl, fun f hff => by cases hff⟩
    | some f =>
      simp only [Bool.and_eq_true, beq_iff_eq] at h
      exact ⟨h.1.1, h.1.2, s, rfl, fun f' hff => by
        injection hff with hf'; exact hf' ▸ h.2⟩

lemma mem_findMechanics {db : DB} {dist : Point → Point → ℚ} {lat lng : ℚ} {r : ℤ}
    {filt : Option String} {row : MechRow}
    (h : row ∈ findMechanics db dist lat lng r filt) :
    ∃ m ∈ db.mechanics, row = mechRow db dist (lng, lat) filt m ∧
      m.isActive = true ∧ m.isVerified = true ∧
      withinRadius dist (lng, lat) r m = true ∧
      matchingOfferings db filt m ≠ [] := by
  unfold findMechanics at h
  rw [List.mem_insertionSort] at h
  rcases List.mem_map.mp h with ⟨m, hm, hrow⟩
  rcases List.mem_filter.mp hm with ⟨hmem, hinc⟩
  unfold includedMech at hinc
  simp only [Bool.and_eq_true, Bool.not_eq_true'] at hinc
  refine ⟨m, hmem, hrow.symm, hinc.1.1.1, hinc.1.1.2, hinc.1.2, ?_⟩
  intro hnil
  rw [hnil] at hinc
  exact absurd hinc.2 (by simp)

/-- C2: every mechanic returned by `find_mechanics_within_radius(p, r)` has
geodesic distance from `p` at most `r * 1609.34` meters — hence at most `r`
miles under the query's own mile-to-meter factor, and in particular within
the claimed 0.01-mile tolerance of `r`. -/
theorem find_mechanics_distance_within_radius (db : DB) (dist : Point → Point → ℚ)
    (lat lng : ℚ) (r : ℤ) (filt : Option String) (row : MechRow)
    (hr : 0 ≤ r) (h : row ∈ findMechanics db dist lat lng r filt) :
    ∃ m ∈ db.mechanics, m.id = row.id ∧ ∃ p, m.location = some p ∧
      dist p (lng, lat) ≤ (r : ℚ) * metersPerMile ∧
      dist p (lng, lat) / metersPerMile ≤ (r : ℚ) + 1/100 := by
  rcases mem_findMechanics h with ⟨m, hm, hrow, _, _, hwr, _⟩
  rcases withinRadius_true hwr with ⟨p, hp, hd⟩
  refine ⟨m, hm, by rw [hrow]; rfl, p, hp, hd, ?_⟩
  have hpos : (0 : ℚ) < metersPerMile := by norm_num [metersPerMile]
  have hmiles : dist p (lng, lat) / metersPerMile ≤ (r : ℚ) := by
    rw [div_le_iff₀ hpos]
    exact hd
  linarith

/-- C2 witness: the theorem applied to the sample state `dbW`, the query
point (0, 0), radius 1 mile and the returned row `rowOne`. -/
theorem find_mechanics_distance_within_radius_witness :
    ∃ m ∈ dbW.mechanics, m.id = rowOne.id ∧ ∃ p, m.location = some p ∧
      dW p (0, 0) ≤ ((1 : ℤ) : ℚ) * metersPerMile ∧
      dW p (0, 0) / metersPerMile ≤ ((1 : ℤ) : ℚ) + 1/100 :=
  find_mechanics_distance_within_radius dbW dW 0 0 1 none rowOne (by decide) (by decide)

/-- C3: a mechanic appears in the output of `find_mechanics_within_radius`
only if it is active, verified, and has at least one available offering whose
(joined) service matches the case-insensitive substring filter whenever one
is supplied; so inactive or unverified mechanics never appear. -/
theorem find_mechanics_only_active_verified_available (db : DB)
    (dist : Point → Point → ℚ) (lat lng : ℚ) (r : ℤ) (filt : Option String)
    (row : MechRow) (h : row ∈ findMechanics db dist lat lng r filt) :
    ∃ m ∈ db.mechanics, m.id = row.id ∧ m.isActive = true ∧ m.isVerified = true ∧
      ∃ ms ∈ db.mechanicServices, ms.mechanicId = m.id ∧ ms.isAvailable = true ∧
        ∃ s, db.services.find? (fun x => x.id == ms.serviceId) = some s ∧
          ∀ f, filt = some f → ilikeContains s.name f = true := by
  rcases mem_findMechanics h with ⟨m, hm, hrow, hact, hver, _, hne⟩
  rcases List.exists_mem_of_ne_nil _ hne with ⟨ms, hms⟩
  rcases List.mem_filter.mp hms with ⟨hmem, hmatch⟩
  rcases offeringMatches_true hmatch with ⟨hmid, havail, s, hs, hfil⟩
  exact ⟨m, hm, by rw [hrow]; rfl, hact, hver, ms, hmem, hmid, havail, s, hs, hfil⟩

/-- C3 witness: the theorem applied to the sample state `dbW` with the
case-insensitive filter "OIL", which matches "Oil Change". -/
theorem find_mechanics_only_active_verified_available_witness :
    ∃ m ∈ dbW.mechanics, m.id = rowOne.id ∧ m.isActive = true ∧ m.isVerified = true ∧
      ∃ ms ∈ dbW.mechanicServices, ms.mechanicId = m.id ∧ ms.isAvailable = true ∧
        ∃ s, dbW.services.find? (fun x => x.id == ms.serviceId) = some s ∧
          ∀ f, (some "OIL" : Option String) = some f → ilikeContains s.name f = true :=
  find_mechanics_only_active_verified_available dbW dW 0 0 1 (some "OIL") rowOne (by decide)

/-- C4 counterexample: with two mechanics 3222 m and 3218 m from the query
point (2.00224 and 1.99957 miles), both reported distances round to 2.00, and
the search may return the geodesically farther mechanic (id 3) before the
nearer one (id 4) — the rows are not ordered non-decreasing by geodesic
distance. -/
theorem find_mechanics_geodesic_order_cex :
    (findMechanics dbT distT 0 0 3 none).map (·.id) = [3, 4] ∧
    mechFar.id = 3 ∧ mechFar.location = some (1, 0) ∧ distT (1, 0) (0, 0) = 3222 ∧
    mechNear.id = 4 ∧ mechNear.location = some (2, 0) ∧ distT (2, 0) (0, 0) = 3218 ∧
    (3218 : ℚ) < 3222 ∧
    (findMechanics dbT distT 0 0 3 none).map (·.distanceMiles) = [2, 2] :=
  ⟨by decide, rfl, rfl, by decide, rfl, rfl, by decide, by norm_num, by decide⟩

/-- C4 amended: the rows of `find_mechanics_within_radius` are ordered
non-decreasing by the reported `distance_miles` — the raw geodesic distance
times 0.000621371, rounded to 2 decimals — with rounded ties in arbitrary
order (so the underlying geodesic distance itself may decrease within a
tie). -/
theorem find_mechanics_sorted_by_reported_distance (db : DB)
    (dist : Point → Point → ℚ) (lat lng : ℚ) (r : ℤ) (filt : Option String) :
    List.Sorted rowLe (findMechanics db dist lat lng r filt) ∧
    ∀ row ∈ findMechanics db dist lat lng r filt,
      ∃ m ∈ db.mechanics, m.id = row.id ∧ ∃ p, m.location = some p ∧
        row.distanceMiles = round2 (dist p (lng, lat) * mileFactor) := by
  constructor
  · exact List.sorted_insertionSort rowLe _
  · intro row hrow
    rcases mem_findMechanics hrow with ⟨m, hm, hrowe, _, _, hwr, _⟩
    rcases withinRadius_true hwr with ⟨p, hp, _⟩
    refine ⟨m, hm, by rw [hrowe]; rfl, p, hp, ?_⟩
    rw [hrowe]
    show round2 (rawDist dist (lng, lat) m * mileFactor) = _
    unfold rawDist
    rw [hp]

/-- C4 witness: the amended theorem applied to the tie state `dbT` and its
first returned row. -/
theorem find_mechanics_sorted_by_reported_distance_witness :
    List.Sorted rowLe (findMechanics dbT distT 0 0 3 none) ∧
    ∃ m ∈ dbT.mechanics, m.id = rowFar.id ∧ ∃ p, m.location = some p ∧
      rowFar.distanceMiles = round2 (distT p (0, 0) * mileFactor) :=
  ⟨(find_mechanics_sorted_by_reported_distance dbT distT 0 0 3 none).1,
   (find_mechanics_sorted_by_reported_distance dbT distT 0 0 3 none).2 rowFar (by decide)⟩

/-- C9: a mechanic whose `location` is NULL — as the location trigger leaves
it when latitude and longitude were never both non-null at any write — is
absent from every proximity search result, whatever its flags and
offerings. -/
theorem null_location_mechanic_absent (db : DB) (dist : Point → Point → ℚ)
    (lat lng : ℚ) (r : ℤ) (filt : Option String) (mid : ℕ) (ws : List MechWrite)
    (hws : ∀ w ∈ ws, w.latitude = none ∨ w.longitude = none)
    (hnull : ∀ m ∈ db.mechanics, m.id = mid → m.location = none) :
    locationAfterWrites ws = none ∧
      ∀ row ∈ findMechanics db dist lat lng r filt, row.id ≠ mid := by
  constructor
  · have aux : ∀ (l : List MechWrite) (init : Option Point),
        (∀ w ∈ l, w.latitude = none ∨ w.longitude = none) →
        l.foldl applyLocTrigger init = init := by
      intro l
      induction l with
      | nil => intro init _; rfl
      | cons w t ih =>
        intro init hall
        have hw := hall w (List.mem_cons_self w t)
        have hstep : applyLocTrigger init w = init := by
          unfold applyLocTrigger
          rcases hw with hlat | hlng
          · rw [hlat]
          · rw [hlng]; cases w.latitude <;> rfl
        rw [List.foldl_cons, hstep]
        exact ih init (fun w' hw' => hall w' (List.mem_cons_of_mem w hw'))
    exact aux ws none hws
  · intro row hrow hid
    rcases mem_findMechanics hrow with ⟨m, hm, hrowe, _, _, hwr, _⟩
    rcases withinRadius_true hwr with ⟨p, hp, _⟩
    have hmid : m.id = mid := by rw [hrowe] at hid; exact hid
    rw [hnull m hm hmid] at hp
    cases hp

/-- C9 witness: the theorem applied to `dbW` (whose mechanic 2 is active,
verified, offers an available service, and has a NULL location) and a write
history that never sets both coordinates. -/
theorem null_location_mechanic_absent_witness :
    locationAfterWrites [⟨none, some 5⟩, ⟨some 3, none⟩] = none ∧
    rowOne.id ≠ 2 :=
  ⟨(null_location_mechanic_absent dbW dW 0 0 1 none 2 [⟨none, some 5⟩, ⟨some 3, none⟩]
      (by decide) (by decide)).1,
   (null_location_mechanic_absent dbW dW 0 0 1 none 2 [⟨none, some 5⟩, ⟨some 3, none⟩]
      (by decide) (by decide)).2 rowOne (by decide)⟩

/-!
Supporting lemmas about the rating trigger.
-/

lemma runRatingTrigger_reviews (db : DB) (mid : ℕ) :
    (runRatingTrigger db mid).reviews = db.reviews := rfl

lemma runRatingTrigger_consistent (db : DB) (mid : ℕ) :
    ∀ m ∈ (runRatingTrigger db mid).mechanics, m.id = mid →
      m.rating = avgRound2 (publishedRatings db mid) ∧
      m.reviewCount = (publishedRatings db mid).length := by
  intro m hm hid
  unfold runRatingTrigger at hm
  simp only [List.mem_map] at hm
  rcases hm with ⟨a, _, hma⟩
  by_cases h : a.id = mid
  · rw [if_pos h] at hma
    rw [← hma]
    exact ⟨rfl, rfl⟩
  · rw [if_neg h] at hma
    rw [← hma] at hid
    exact absurd hid h

lemma publishedRatings_insert (db : DB) (rv : Review) (mid : ℕ) :
    publishedRatings { db with reviews := db.reviews ++ [rv] } mid =
      publishedRatings db mid ++
        (if rv.mechanicId == mid && rv.isPublished then [rv.rating] else []) := by
  unfold publishedRatings
  simp only [List.filter_append, List.map_append]
  congr 1
  by_cases h : (rv.mechanicId == mid && rv.isPublished) = true
  · rw [if_pos h]
    simp [List.filter, h]
  · rw [if_neg h]
    simp only [Bool.not_eq_true] at h
    simp [List.filter, h]

/-- C5: after an insert (or an update, via the unique booking key) of a
review row, the owning mechanic's `rating` is `ROUND(AVG(rating), 2)` and its
`review_count` the count, both over that mechanic's published reviews in the
new state, recomputed in the same atomic step; and an inserted unpublished
review leaves the set of published ratings — hence both recomputed values —
exactly as before. -/
theorem rating_trigger_recomputes (db : DB) (rv : Review) (bid : ℕ) (nr : ℤ) (np : Bool) :
    (∀ m ∈ (insertReview db rv).mechanics, m.id = rv.mechanicId →
      m.rating = avgRound2 (publishedRatings (insertReview db rv) rv.mechanicId) ∧
      m.reviewCount = (publishedRatings (insertReview db rv) rv.mechanicId).length) ∧
    (∀ old, db.reviews.find? (fun x => x.bookingId == bid) = some old →
      ∀ m ∈ (updateReview db bid nr np).mechanics, m.id = old.mechanicId →
        m.rating = avgRound2 (publishedRatings (updateReview db bid nr np) old.mechanicId) ∧
        m.reviewCount =
          (publishedRatings (updateReview db bid nr np) old.mechanicId).length) ∧
    (rv.isPublished = false →
      publishedRatings (insertReview db rv) rv.mechanicId =
        publishedRatings db rv.mechanicId) := by
  refine ⟨?_, ?_, ?_⟩
  · intro m hm hid
    exact runRatingTrigger_consistent { db with reviews := db.reviews ++ [rv] }
      rv.mechanicId m hm hid
  · intro old hold m hm hid
    unfold updateReview at hm ⊢
    rw [hold] at hm ⊢
    exact runRatingTrigger_consistent
      { db with
        reviews := db.reviews.map (fun x =>
          if x.bookingId == bid then { x with rating := nr, isPublished := np } else x) }
      old.mechanicId m hm hid
  · intro hunpub
    have : (insertReview db rv).reviews = db.reviews ++ [rv] := rfl
    unfold insertReview
    rw [show publishedRatings
        (runRatingTrigger { db with reviews := db.reviews ++ [rv] } rv.mechanicId)
        rv.mechanicId =
        publishedRatings { db with reviews := db.reviews ++ [rv] } rv.mechanicId from rfl]
    rw [publishedRatings_insert]
    rw [if_neg (by simp [hunpub])]
    exact List.append_nil _

/-- C5 witness: the claim's concrete scenario on the fresh mechanic of
`dbR0` — a published 5 gives (5.00, 1), a published 3 gives (4.00, 2), and an
unpublished review leaves the published set (hence both values) unchanged,
via the theorem applied at `dbR2` and `rvHidden`. -/
theorem rating_trigger_recomputes_witness :
    ((dbR1.mechanics.find? (fun m => m.id == 9)).map (fun m => (m.rating, m.reviewCount))
      = some (some 5, 1)) ∧
    ((dbR2.mechanics.find? (fun m => m.id == 9)).map (fun m => (m.rating, m.reviewCount))
      = some (some 4, 2)) ∧
    ((dbR3.mechanics.find? (fun m => m.id == 9)).map (fun m => (m.rating, m.reviewCount))
      = some (some 4, 2)) ∧
    publishedRatings dbR3 9 = publishedRatings dbR2 9 :=
  ⟨by decide, by decide, by decide,
   (rating_trigger_recomputes dbR2 rvHidden 0 0 true).2.2 rfl⟩

/-- C6: the code contradicts the claimed empty-set consistency — a mechanic
created with the column default `rating = 0.0` that has zero published
reviews keeps `rating = 0.0` until the trigger first runs, but any trigger
recomputation over the still-empty published set (here: inserting an
unpublished review) sets `rating` to NULL (`AVG` over no rows), a different
value; `review_count` stays 0. -/
theorem rating_trigger_null_on_empty_published :
    ((dbR0.mechanics.find? (fun m => m.id == 9)).map (·.rating) = some (some 0)) ∧
    (((insertReview dbR0 rvHidden).mechanics.find? (fun m => m.id == 9)).map (·.rating)
      = some none) ∧
    (((insertReview dbR0 rvHidden).mechanics.find? (fun m => m.id == 9)).map (·.reviewCount)
      = some 0) ∧
    publishedRatings (insertReview dbR0 rvHidden) 9 = [] ∧
    rvHidden.isPublished = false ∧
    some (0 : ℚ) ≠ (none : Option ℚ) :=
  ⟨by decide, by decide, by decide, by decide, rfl, by simp⟩

/-- C7 counterexample: in the sample catalog `dbS`, both services share the
category "Repair" and the Spanish-resolved names come back as
["Zapatas y frenos", "Aceite"] — in decreasing resolved-name order, because
the query sorts by the canonical `s.name`, not the resolved name. -/
theorem get_services_resolved_order_cex :
    (getServices dbS "es").map (·.name) = ["Zapatas y frenos", "Aceite"] ∧
    (getServices dbS "es").map (·.category) = [some "Repair", some "Repair"] ∧
    lexLe (strKey "Zapatas y frenos") (strKey "Aceite") = false :=
  ⟨by decide, by decide, by decide⟩

/-- C7 amended: `GET /api/services` returns exactly the active services,
name and description resolved per COALESCE to the requested language's
translation when a translation row exists and falling back to the canonical
text otherwise; the rows are ordered by category (NULLS LAST) and then by
the CANONICAL (untranslated) service name, not by the resolved name. -/
theorem get_services_resolved_sorted_canonical (db : DB) (lang : String) :
    (∀ s t, findTranslation db lang s = some t →
      (resolveService db lang s).name = t.name ∧
      (resolveService db lang s).description = (t.description <|> s.description)) ∧
    (∀ s, findTranslation db lang s = none →
      (resolveService db lang s).name = s.name ∧
      (resolveService db lang s).description = s.description) ∧
    ∃ l, List.Sorted svcLe l ∧ l.Perm (db.services.filter (·.isActive)) ∧
      getServices db lang = l.map (resolveService db lang) := by
  refine ⟨?_, ?_, List.insertionSort svcLe (db.services.filter (·.isActive)),
    List.sorted_insertionSort svcLe _, List.perm_insertionSort svcLe _, rfl⟩
  · intro s t ht
    unfold resolveService
    rw [ht]
    exact ⟨rfl, rfl⟩
  · intro s ht
    unfold resolveService
    rw [ht]
    exact ⟨rfl, rfl⟩

/-- C7 witness: the amended theorem applied to `dbS` — the Spanish request
resolves to the translated name, the untranslated "en" request falls back to
the canonical name unchanged. -/
theorem get_services_resolved_sorted_canonical_witness :
    (resolveService dbS "es" svcBrake).name = "Zapatas y frenos" ∧
    (resolveService dbS "en" svcBrake).name = "Brake Inspection" :=
  ⟨((get_services_resolved_sorted_canonical dbS "es").1 svcBrake trBrake (by decide)).1,
   ((get_services_resolved_sorted_canonical dbS "en").2.1 svcBrake (by decide)).1⟩

/-- C8 counterexample: a supplied radius that is negative (or non-numeric)
is not rejected — the handler still executes the storage query, passing the
parseInt result through (NaN as a null argument). -/
theorem radius_not_validated_cex :
    parseIntM "-5" = some (-5) ∧
    nearbyHandler ⟨some "34.05", some "-118.24", some "-5"⟩ =
      .queryExec (some (3405/100)) (some (-(11824/100))) (some (-5)) ∧
    nearbyHandler ⟨some "34.05", some "-118.24", some "abc"⟩ =
      .queryExec (some (3405/100)) (some (-(11824/100))) none ∧
    (-5 : ℤ) ≤ 0 :=
  ⟨by decide, by decide, by decide, by decide⟩

/-- C8 amended: the radius defaults to 10 when the parameter is omitted, but
a supplied radius is passed through `parseInt` with no validation — zero,
negative and non-numeric values all reach the search, which runs anyway. -/
theorem radius_default_ten_passthrough (lat lng : String)
    (hlat : lat ≠ "") (hlng : lng ≠ "") :
    nearbyHandler ⟨some lat, some lng, none⟩ =
      .queryExec (parseFloatM lat) (parseFloatM lng) (some 10) ∧
    ∀ r : String, nearbyHandler ⟨some lat, some lng, some r⟩ =
      .queryExec (parseFloatM lat) (parseFloatM lng) (parseIntM r) := by
  constructor
  · simp [nearbyHandler, jsTruthy, hlat, hlng]
  · intro r
    simp [nearbyHandler, jsTruthy, hlat, hlng]

/-- C8 witness: the amended theorem applied at concrete parameters, with the
evaluations spelled out. -/
theorem radius_default_ten_passthrough_witness :
    nearbyHandler ⟨some "1", some "2", none⟩ =
      .queryExec (parseFloatM "1") (parseFloatM "2") (some 10) ∧
    nearbyHandler ⟨some "1", some "2", some "0"⟩ =
      .queryExec (parseFloatM "1") (parseFloatM "2") (parseIntM "0") ∧
    parseFloatM "1" = some 1 ∧ parseIntM "0" = some 0 :=
  ⟨(radius_default_ten_passthrough "1" "2" (by decide) (by decide)).1,
   (radius_default_ten_passthrough "1" "2" (by decide) (by decide)).2 "0",
   by decide, by decide⟩

/-- C1 counterexample: a malformed latitude ("abc", which does not parse as
a number) and an out-of-range latitude (999) are both accepted — the handler
executes the storage query instead of returning a 400. -/
theorem nearby_malformed_not_rejected_cex :
    parseFloatM "abc" = none ∧
    nearbyHandler ⟨some "abc", some "50", none⟩ = .queryExec none (some 50) (some 10) ∧
    nearbyHandler ⟨some "999", some "0", none⟩ = .queryExec (some 999) (some 0) (some 10) ∧
    ¬((999 : ℚ) ≤ 90) :=
  ⟨by decide, by decide, by decide, by norm_num⟩

/-- C1 amended: the handler returns 400 (and executes no storage query)
exactly when latitude or longitude is missing or the empty string; any other
value — malformed or out of range included — makes it execute the query with
the raw `parseFloat` results. -/
theorem nearby_reject_iff_missing (req : NearbyReq) :
    (nearbyHandler req = .badRequest ↔
      (jsTruthy req.latitude = false ∨ jsTruthy req.longitude = false)) ∧
    (jsTruthy req.latitude = true → jsTruthy req.longitude = true →
      nearbyHandler req =
        .queryExec (parseFloatM (req.latitude.getD "")) (parseFloatM (req.longitude.getD ""))
          (match req.radius with
           | none => some 10
           | some r => parseIntM r)) := by
  constructor
  · constructor
    · intro h
      by_cases h1 : jsTruthy req.latitude
        <;> by_cases h2 : jsTruthy req.longitude
        <;> simp_all [nearbyHandler]
    · intro h
      rcases h with h | h <;> simp [nearbyHandler, h]
  · intro h1 h2
    simp [nearbyHandler, h1, h2]

/-- C1 witness: the amended theorem applied at concrete requests — missing
or empty coordinates yield the 400, any nonempty strings (even
unparseable ones) reach the query execution. -/
theorem nearby_reject_iff_missing_witness :
    nearbyHandler ⟨none, some "50", none⟩ = .badRequest ∧
    nearbyHandler ⟨some "", some "50", none⟩ = .badRequest ∧
    nearbyHandler ⟨some "abc", some "50", some "7"⟩ =
      .queryExec (parseFloatM "abc") (parseFloatM "50") (parseIntM "7") :=
  ⟨(nearby_reject_iff_missing ⟨none, some "50", none⟩).1.mpr (Or.inl (by decide)),
   (nearby_reject_iff_missing ⟨some "", some "50", none⟩).1.mpr (Or.inl (by decide)),
   (nearby_reject_iff_missing ⟨some "abc", some "50", some "7"⟩).2 (by decide) (by decide)⟩

/-- C10: for an id whose mechanic row is active, `GET /api/mechanics/:id`
responds 200 with the mechanic and the distinct service names aggregated
over ALL of its offering rows — the lookup never consults `is_verified`,
`ms.is_available` or `s.is_active` — and a mechanic with no offerings still
gets the 200 response, with a NULL services array. -/
theorem get_mechanic_by_id_spec (db : DB) (mid : ℕ) (m : Mechanic)
    (hm : db.mechanics.find? (fun x => x.id == mid && x.isActive) = some m) :
    getMechanicById db mid = .found m (aggServices db mid) ∧
    (∀ ms ∈ db.mechanicServices, ms.mechanicId = mid →
      ∀ s, db.services.find? (fun x => x.id == ms.serviceId) = some s →
        ∃ l, aggServices db mid = some l ∧ s.name ∈ l) ∧
    (db.mechanicServices.filter (fun ms => ms.mechanicId == mid) = [] →
      aggServices db mid = none) := by
  refine ⟨?_, ?_, ?_⟩
  · unfold getMechanicById
    rw [hm]
  · intro ms hms hmid s hs
    have hmem : s.name ∈ aggNames db mid := by
      unfold aggNames
      rw [List.mem_dedup]
      exact List.mem_filterMap.mpr
        ⟨ms, List.mem_filter.mpr ⟨hms, by simp [hmid]⟩, by rw [hs]; rfl⟩
    have hne : ¬ ((aggNames db mid).isEmpty = true) := by
      cases hnil : aggNames db mid with
      | nil => rw [hnil] at hmem; cases hmem
      | cons a t => simp
    refine ⟨aggNames db mid, ?_, hmem⟩
    unfold aggServices
    rw [if_neg hne]
  · intro hf
    unfold aggServices aggNames
    rw [hf]
    rfl

/-- C10 witness: the theorem applied to `dbX` — mechanic 7 is unverified,
its only offering is unavailable and its service inactive, yet the response
is the 200 with that service's name aggregated; mechanic 8 has no offerings
and still gets the 200 with a NULL services array. -/
theorem get_mechanic_by_id_spec_witness :
    getMechanicById dbX 7 = .found mechById (aggServices dbX 7) ∧
    (∃ l, aggServices dbX 7 = some l ∧ "Engine Diagnostic" ∈ l) ∧
    aggServices dbX 8 = none ∧
    mechById.isVerified = false ∧ svcDiag.isActive = false :=
  ⟨(get_mechanic_by_id_spec dbX 7 mechById (by decide)).1,
   (get_mechanic_by_id_spec dbX 7 mechById (by decide)).2.1
     { mechanicId := 7, serviceId := 9, minPrice := 10, maxPrice := 20, isAvailable := false }
     (by decide) rfl svcDiag (by decide),
   (get_mechanic_by_id_spec dbX 8 mechBare (by decide)).2.2 (by decide),
   rfl, rfl⟩
